import Mathlib

/-!
Shallow embedding of the audit heuristics engine of the agent-auditor
repository (src/app.py and src/visuals.py).

HTTP fetches are modelled by their outcomes: a value of type Option
Response, where none stands for a raised request exception (timeout, DNS
failure, connection failure) and some r for a completed response.
BeautifulSoup parsing of the homepage body is modelled by a ParsedPage
record holding exactly the pieces of the parse that the audit reads.
Python dictionaries are modelled by association lists in insertion order.
-/

/-- Helper for the Python substring test: strStarts n h decides whether
the character list n is an initial segment of h. -/
def strStarts : List Char → List Char → Bool
  | [], _ => true
  | _ :: _, [] => false
  | a :: as, b :: bs => a == b && strStarts as bs

/-- strHas n h decides whether n occurs contiguously inside h. -/
def strHas (needle : List Char) : List Char → Bool
  | [] => strStarts needle []
  | c :: rest => strStarts needle (c :: rest) || strHas needle rest

/-- The Python expression needle in hay on strings: substring
containment, as used throughout src/app.py and src/visuals.py. -/
def pyIn (needle hay : String) : Bool := strHas needle.data hay.data

/-- A completed HTTP response, as read by the audit: requests.Response
restricted to the fields the code touches. -/
structure Response where
  status_code : Nat
  text : String
  headers : List (String × String)

/-- The pieces of the BeautifulSoup parse of the homepage body consumed
by perform_audit (src/app.py lines 131-160).  The fields title and
bodyText feed only the narrative prompt; metaDesc is Option (Option
String): none when no meta description tag exists, some c when the tag
exists and c is its optional content attribute (the attribute lookup on
a tag without the attribute raises KeyError in Python).  schemas lists
the .string value of each script element of type application/ld+json in
document order; .string is None (modelled none) when the element has no
single text child, for example when it is empty.  html stands for
str(soup) and metaGeneratorStr for str(soup.find of the generator meta),
the two strings inspected by detect_tech_stack. -/
structure ParsedPage where
  title : Option String
  metaDesc : Option (Option String)
  bodyText : Option String
  schemas : List (Option String)
  manifestLink : Bool
  html : String
  metaGeneratorStr : String

/-- Python dictionary membership plus lookup on a header mapping. -/
def headerLookup (headers : List (String × String)) (k : String) : Option String :=
  (headers.find? (fun p => p.1 == k)).map (fun p => p.2)

/-- detect_tech_stack (src/app.py lines 19-42): substring signatures over
str(soup), the generator meta tag and the response headers, joined with
a comma, with a sentinel when nothing matched. -/
def detect_tech_stack (html metaGeneratorStr : String) (headers : List (String × String)) : String :=
  let stack : List String :=
    (if pyIn "wp-content" html || pyIn "WordPress" metaGeneratorStr then ["WordPress"] else [])
    ++ (if pyIn "cdn.shopify.com" html || pyIn "Shopify" html then ["Shopify"] else [])
    ++ (if pyIn "woocommerce" html then ["WooCommerce"] else [])
    ++ (if pyIn "__NEXT_DATA__" html then ["Next.js (React)"] else [])
    ++ (if pyIn "data-reactroot" html then ["React"] else [])
    ++ (if pyIn "Wix" html || pyIn "wix-warmup-data" html then ["Wix"] else [])
    ++ (match headerLookup headers "X-Powered-By" with
        | some v => ["Server: " ++ v]
        | none => [])
  if stack.isEmpty then "Custom/Unknown Stack" else String.intercalate ", " stack

/-- Block 1 of check_security_gates (src/app.py lines 49-63): the
robots.txt fetch and the derived ai_access verdict.  The two dictionary
entries are produced together by the same try/except. -/
def robotsGates (robots : Option Response) : List (String × String) :=
  match robots with
  | some r =>
    if r.status_code == 200 then
      [("robots.txt", "Found"),
       ("ai_access",
         if pyIn "GPTBot" r.text && pyIn "Disallow" r.text then
           "BLOCKED (Critical Issue)"
         else "Allowed")]
    else
      [("robots.txt", "Missing"), ("ai_access", "Uncontrolled (Risky)")]
  | none => [("robots.txt", "Error"), ("ai_access", "Unknown")]

/-- Block 2 of check_security_gates (src/app.py lines 66-90): the four
sitemap variants are all fetched inside one try, so a raised exception
on any of them (a none outcome) lands in the except branch, and only
afterwards is the first 200 in fixed order selected. -/
def sitemapGate (s1 s2 s3 s4 : Option Response) : String :=
  match s1, s2, s3, s4 with
  | some r1, some r2, some r3, some r4 =>
    if r1.status_code == 200 then "Found (Standard)"
    else if r2.status_code == 200 then "Found (sitemaps.xml)"
    else if r3.status_code == 200 then "Found (sitemap_index.xml)"
    else if r4.status_code == 200 then "Found (wp-sitemap.xml)"
    else "Missing"
  | _, _, _, _ => "Error checking"

/-- The trace of sitemap requests the try block of src/app.py lines
66-77 actually issues: the fetches run strictly in sequence and a raised
exception (none) skips the remainder of the block, while a completed
fetch never short-circuits the following ones, whatever its status. -/
def sitemapIssued (s1 s2 s3 _s4 : Option Response) : List String :=
  match s1 with
  | none => ["/sitemap.xml"]
  | some _ =>
    match s2 with
    | none => ["/sitemap.xml", "/sitemaps.xml"]
    | some _ =>
      match s3 with
      | none => ["/sitemap.xml", "/sitemaps.xml", "/sitemap_index.xml"]
      | some _ =>
        ["/sitemap.xml", "/sitemaps.xml", "/sitemap_index.xml", "/wp-sitemap.xml"]

/-- Block 3 of check_security_gates (src/app.py lines 94-98): ai.txt. -/
def aiTxtGate (a : Option Response) : String :=
  match a with
  | some r => if r.status_code == 200 then "Found (Future Proof!)" else "Missing"
  | none => "Error"

/-- check_security_gates (src/app.py lines 44-100) over the six fetch
outcomes, returning the gates dictionary in insertion order. -/
def check_security_gates (robots s1 s2 s3 s4 a : Option Response) : List (String × String) :=
  robotsGates robots
    ++ [("sitemap.xml", sitemapGate s1 s2 s3 s4)]
    ++ [("ai.txt", aiTxtGate a)]

/-- Python dictionary lookup on the gates mapping.  check_security_gates
always populates every key the audit reads, so the default is never
exercised on reachable records. -/
def lookupGate (gates : List (String × String)) (k : String) : String :=
  ((gates.find? (fun p => p.1 == k)).map (fun p => p.2)).getD ""

/-- The aggregate audit record built by perform_audit (src/app.py lines
172-179). -/
structure AuditRecord where
  url : String
  stack : String
  gates : List (String × String)
  schema_count : Nat
  schema_sample : String
  manifest : String

/-- Rule 1 text of generate_recommendations (src/app.py line 107). -/
def recBlocked : String :=
  "CRITICAL: Update robots.txt to whitelist \x27GPTBot\x27, \x27CCBot\x27, and \x27Google-Extended\x27."

/-- Rule 2 text of generate_recommendations (src/app.py line 110). -/
def recSchema : String :=
  "HIGH PRIORITY: Implement JSON-LD Schema. The Agent cannot see your products/prices."

/-- Rule 3 text of generate_recommendations (src/app.py line 113). -/
def recAiTxt : String :=
  "OPTIMIZATION: Create an \x27ai.txt\x27 file to explicitly grant permission to specific AI models."

/-- Rule 4 text of generate_recommendations (src/app.py line 116). -/
def recSSR : String :=
  "TECH FIX: Your Next.js site might be client-side rendering. Ensure Schema is injected via Server Side Rendering (SSR)."

/-- generate_recommendations (src/app.py lines 102-118): four
independent rules appended in a fixed order. -/
def generate_recommendations (audit_data : AuditRecord) : List String :=
  (if pyIn "BLOCKED" (lookupGate audit_data.gates "ai_access") then [recBlocked] else [])
  ++ (if audit_data.schema_count == 0 then [recSchema] else [])
  ++ (if pyIn "Missing" (lookupGate audit_data.gates "ai.txt") then [recAiTxt] else [])
  ++ (if pyIn "Next.js" audit_data.stack && audit_data.schema_count == 0 then [recSSR] else [])

/-- calculate_score (src/visuals.py lines 4-28): five additive 20 point
checks. -/
def calculate_score (audit_data : AuditRecord) : Nat :=
  (if lookupGate audit_data.gates "robots.txt" == "Found" then 20 else 0)
  + (if pyIn "Allowed" (lookupGate audit_data.gates "ai_access") then 20 else 0)
  + (if pyIn "Found" (lookupGate audit_data.gates "sitemap.xml") then 20 else 0)
  + (if audit_data.schema_count > 0 then 20 else 0)
  + (if pyIn "Found" (lookupGate audit_data.gates "ai.txt") || pyIn "Found" audit_data.manifest then 20 else 0)

/-- The meta description extraction of src/app.py lines 135-136: the
expression selecting the content attribute raises KeyError (modelled
none) when the tag exists without a content attribute. -/
def metaDescStep : Option (Option String) → Option String
  | none => some "No Description"
  | some (some c) => some c
  | some none => none

/-- The schema sample extraction of src/app.py line 152: when the list
of ld+json scripts is nonempty the code slices the .string of the first
one, and if that .string is None the slice raises TypeError (modelled
none). -/
def schemaSampleStep : List (Option String) → Option String
  | [] => some "None"
  | some t :: _ => some (t.take 500)
  | none :: _ => none

/-- The identity resolution chain of src/app.py lines 162-169, given the
status codes of the two completed probes and the presence of a manifest
link element in the homepage markup. -/
def resolveManifest (pluginStatus webManifestStatus : Nat) (htmlManifest : Bool) : String :=
  if pluginStatus == 200 then "Found (AI Plugin)"
  else if webManifestStatus == 200 then "Found (Web Manifest)"
  else if htmlManifest then "Found (Linked in HTML)"
  else "Missing"

/-- The outcomes of every external effect one run of perform_audit can
perform: the homepage fetch, the parse of its body, the six gate
fetches, the two identity probes and the narrative generation call.
none models a raised exception for fetches and a failed call for
genText. -/
structure AuditEnv where
  url : String
  homepage : Option Response
  page : ParsedPage
  robots : Option Response
  sitemap1 : Option Response
  sitemap2 : Option Response
  sitemap3 : Option Response
  sitemap4 : Option Response
  aitxt : Option Response
  plugin : Option Response
  webManifest : Option Response
  genText : Option String

/-- perform_audit (src/app.py lines 120-227).  Everything from the
homepage fetch to the narrative call runs inside one try; any raise
lands in the outer except, which reports Audit Failed and returns None
(modelled by a none result).  In particular the two identity probes at
lines 158-159 have no local handler, unlike every fetch inside
check_security_gates. -/
def perform_audit (env : AuditEnv) : Option (AuditRecord × List String × String) :=
  match env.homepage with
  | none => none
  | some response =>
    let soup := env.page
    match metaDescStep soup.metaDesc with
    | none => none
    | some _meta_desc_text =>
      let stack := detect_tech_stack soup.html soup.metaGeneratorStr response.headers
      let gates := check_security_gates env.robots env.sitemap1 env.sitemap2 env.sitemap3 env.sitemap4 env.aitxt
      match schemaSampleStep soup.schemas with
      | none => none
      | some schema_sample =>
        match env.plugin with
        | none => none
        | some plugin_res =>
          match env.webManifest with
          | none => none
          | some web_manifest_res =>
            let manifest_status := resolveManifest plugin_res.status_code web_manifest_res.status_code soup.manifestLink
            let audit_data : AuditRecord :=
              { url := env.url, stack := stack, gates := gates,
                schema_count := soup.schemas.length, schema_sample := schema_sample,
                manifest := manifest_status }
            let recs := generate_recommendations audit_data
            match env.genText with
            | none => none
            | some ai_summary => some (audit_data, recs, ai_summary)

/-- A completed 200 response with empty body. -/
def resp200 : Response := { status_code := 200, text := "", headers := [] }

/-- A completed 404 response. -/
def resp404 : Response := { status_code := 404, text := "", headers := [] }

/-- A robots.txt response whose body names GPTBot and a Disallow line. -/
def robotsBlockedResp : Response :=
  { status_code := 200, text := "User-agent: GPTBot\nDisallow: /", headers := [] }

/-- A robots.txt response whose body allows everything. -/
def robotsAllowedResp : Response :=
  { status_code := 200, text := "User-agent: *\nAllow: /", headers := [] }

/-- The parse of a 200 homepage with an empty body: no title, no meta
description tag, no body element, no ld+json scripts, no manifest link;
str(soup) is empty and the generator meta find renders as None. -/
def emptyPage : ParsedPage :=
  { title := none, metaDesc := none, bodyText := none, schemas := [],
    manifestLink := false, html := "", metaGeneratorStr := "None" }

/-- The scenario of claim C4: homepage 200 with empty body, and every
well-known-path probe completing with 404. -/
def envEmptySite : AuditEnv :=
  { url := "https://example.com", homepage := some resp200, page := emptyPage,
    robots := some resp404, sitemap1 := some resp404, sitemap2 := some resp404,
    sitemap3 := some resp404, sitemap4 := some resp404, aitxt := some resp404,
    plugin := some resp404, webManifest := some resp404, genText := some "report" }

/-- The audit record the code builds for the envEmptySite scenario. -/
def emptySiteRecord : AuditRecord :=
  { url := "https://example.com", stack := "Custom/Unknown Stack",
    gates := [("robots.txt", "Missing"), ("ai_access", "Uncontrolled (Risky)"),
              ("sitemap.xml", "Missing"), ("ai.txt", "Missing")],
    schema_count := 0, schema_sample := "None", manifest := "Missing" }

/-- envEmptySite except that the ai-plugin identity probe raises. -/
def envIdentityFailure : AuditEnv :=
  { envEmptySite with plugin := none }

/-- envEmptySite except that the web manifest identity probe raises. -/
def envManifestFailure : AuditEnv :=
  { envEmptySite with webManifest := none }

/-- envEmptySite except that every Gate Inspector fetch raises. -/
def envGatesDown : AuditEnv :=
  { envEmptySite with
    robots := none
    sitemap1 := none
    sitemap2 := none
    sitemap3 := none
    sitemap4 := none
    aitxt := none }

/-- envEmptySite except that the homepage holds exactly one ld+json
script element with no text content, so its .string is None. -/
def envEmptySchemaScript : AuditEnv :=
  { envEmptySite with page := { emptyPage with schemas := [none] } }

/-- A record with blocked ai access, no schema, missing ai.txt and a
Next.js stack, for the recommendation and scorer witnesses. -/
def blockedNextRecord : AuditRecord :=
  { url := "https://example.com", stack := "Next.js (React)",
    gates := [("robots.txt", "Found"), ("ai_access", "BLOCKED (Critical Issue)"),
              ("sitemap.xml", "Missing"), ("ai.txt", "Missing")],
    schema_count := 0, schema_sample := "None", manifest := "Missing" }

/-- An initial segment of an initial segment is an initial segment. -/
theorem strStarts_trans {a b c : List Char} (h1 : strStarts a b = true) (h2 : strStarts b c = true) :
    strStarts a c = true := by
  induction a generalizing b c with
  | nil => rfl
  | cons x xs ih =>
    cases b with
    | nil => simp [strStarts] at h1
    | cons y ys =>
      cases c with
      | nil => simp [strStarts] at h2
      | cons z zs =>
        simp only [strStarts, Bool.and_eq_true, beq_iff_eq] at h1 h2 ⊢
        exact ⟨h1.1.trans h2.1, ih h1.2 h2.2⟩

/-- Substring containment is antitone in the needle: an initial segment
of an occurring needle occurs as well. -/
theorem strHas_mono {n1 n2 h : List Char} (hp : strStarts n1 n2 = true) (hh : strHas n2 h = true) :
    strHas n1 h = true := by
  induction h with
  | nil => exact strStarts_trans hp hh
  | cons c rest ih =>
    simp only [strHas, Bool.or_eq_true] at hh ⊢
    cases hh with
    | inl hl => exact Or.inl (strStarts_trans hp hl)
    | inr hr => exact Or.inr (ih hr)

/-- Reading the sitemap.xml key of the gates dictionary yields the
sitemap block result, whatever the robots block produced. -/
theorem lookupGate_sitemap (robots s1 s2 s3 s4 a : Option Response) :
    lookupGate (check_security_gates robots s1 s2 s3 s4 a) "sitemap.xml" = sitemapGate s1 s2 s3 s4 := by
  cases robots with
  | none => rfl
  | some r =>
    simp only [check_security_gates, robotsGates]
    split_ifs <;> rfl

/-- Reading the ai_access key of the gates dictionary yields the robots
block verdict, independent of the other fetches. -/
theorem lookupGate_ai_access (robots s1 s2 s3 s4 a : Option Response) :
    lookupGate (check_security_gates robots s1 s2 s3 s4 a) "ai_access"
      = lookupGate (robotsGates robots) "ai_access" := by
  cases robots with
  | none => rfl
  | some r =>
    simp only [check_security_gates, robotsGates, lookupGate]
    split_ifs <;> rfl

/-- A 20-point bucket is monotone under implication of its condition. -/
theorem ite20_mono {p q : Prop} [Decidable p] [Decidable q] (h : p → q) :
    (if p then 20 else 0) ≤ (if q then 20 else 0 : Nat) := by
  by_cases hp : p
  · rw [if_pos hp, if_pos (h hp)]
  · rw [if_neg hp]
    exact Nat.zero_le _

/-- Claim C2: for every robots.txt fetch outcome, the derived ai_access
status is the blocked verdict exactly when the fetch returned 200 and
the body contains both GPTBot and Disallow as substrings (pure
co-occurrence), the allowed verdict when it returned 200 without that
co-occurrence, the uncontrolled verdict when it completed with a
non-200 status, and the unknown verdict when the fetch itself raised. -/
theorem ai_access_derivation (robots s1 s2 s3 s4 a : Option Response) :
    (∀ r, robots = some r → r.status_code = 200 →
        pyIn "GPTBot" r.text = true → pyIn "Disallow" r.text = true →
        lookupGate (check_security_gates robots s1 s2 s3 s4 a) "ai_access" = "BLOCKED (Critical Issue)")
    ∧ (∀ r, robots = some r → r.status_code = 200 →
        (pyIn "GPTBot" r.text && pyIn "Disallow" r.text) = false →
        lookupGate (check_security_gates robots s1 s2 s3 s4 a) "ai_access" = "Allowed")
    ∧ (∀ r, robots = some r → r.status_code ≠ 200 →
        lookupGate (check_security_gates robots s1 s2 s3 s4 a) "ai_access" = "Uncontrolled (Risky)")
    ∧ (robots = none →
        lookupGate (check_security_gates robots s1 s2 s3 s4 a) "ai_access" = "Unknown") := by
  refine ⟨?_, ?_, ?_, ?_⟩
  · intro r hr h200 hg hd
    subst hr
    rw [lookupGate_ai_access]
    simp [robotsGates, lookupGate, h200, hg, hd]
  · intro r hr h200 hcond
    subst hr
    rw [lookupGate_ai_access]
    simp [robotsGates, lookupGate, h200, hcond]
  · intro r hr h200
    subst hr
    rw [lookupGate_ai_access]
    simp [robotsGates, lookupGate, h200]
  · intro hr
    subst hr
    rfl

/-- Witness for claim C2 at the four concrete robots.txt outcomes named
by the spec examples. -/
theorem ai_access_derivation_witness :
    lookupGate (check_security_gates (some robotsBlockedResp) (some resp404) (some resp404)
        (some resp404) (some resp404) (some resp404)) "ai_access" = "BLOCKED (Critical Issue)"
    ∧ lookupGate (check_security_gates (some robotsAllowedResp) (some resp404) (some resp404)
        (some resp404) (some resp404) (some resp404)) "ai_access" = "Allowed"
    ∧ lookupGate (check_security_gates (some resp404) (some resp404) (some resp404)
        (some resp404) (some resp404) (some resp404)) "ai_access" = "Uncontrolled (Risky)"
    ∧ lookupGate (check_security_gates none (some resp404) (some resp404)
        (some resp404) (some resp404) (some resp404)) "ai_access" = "Unknown" :=
  ⟨(ai_access_derivation (some robotsBlockedResp) (some resp404) (some resp404) (some resp404)
      (some resp404) (some resp404)).1 robotsBlockedResp rfl rfl (by decide) (by decide),
   (ai_access_derivation (some robotsAllowedResp) (some resp404) (some resp404) (some resp404)
      (some resp404) (some resp404)).2.1 robotsAllowedResp rfl rfl (by decide),
   (ai_access_derivation (some resp404) (some resp404) (some resp404) (some resp404)
      (some resp404) (some resp404)).2.2.1 resp404 rfl (by decide),
   (ai_access_derivation none (some resp404) (some resp404) (some resp404)
      (some resp404) (some resp404)).2.2.2 rfl⟩

/-- Claim C3: the score is the sum of five independent 20-point checks
(robots.txt found, ai access allowed, sitemap status containing Found,
positive schema count, ai.txt found or manifest found), hence always a
multiple of 20 between 0 and 100, and a failing check never zeroes out
the others. -/
theorem score_additive_bounded (audit_data : AuditRecord) :
    calculate_score audit_data
      = 20 * ((if lookupGate audit_data.gates "robots.txt" == "Found" then 1 else 0)
          + (if pyIn "Allowed" (lookupGate audit_data.gates "ai_access") then 1 else 0)
          + (if pyIn "Found" (lookupGate audit_data.gates "sitemap.xml") then 1 else 0)
          + (if audit_data.schema_count > 0 then 1 else 0)
          + (if pyIn "Found" (lookupGate audit_data.gates "ai.txt") || pyIn "Found" audit_data.manifest then 1 else 0))
    ∧ calculate_score audit_data % 20 = 0
    ∧ calculate_score audit_data ≤ 100 := by
  unfold calculate_score
  by_cases h1 : (lookupGate audit_data.gates "robots.txt" == "Found") = true <;>
  by_cases h2 : pyIn "Allowed" (lookupGate audit_data.gates "ai_access") = true <;>
  by_cases h3 : pyIn "Found" (lookupGate audit_data.gates "sitemap.xml") = true <;>
  by_cases h4 : audit_data.schema_count > 0 <;>
  by_cases h5 : (pyIn "Found" (lookupGate audit_data.gates "ai.txt") || pyIn "Found" audit_data.manifest) = true <;>
  simp [h1, h2, h3, h4, h5]

/-- Claim C4: on a homepage returning 200 with an empty body and every
well-known-path probe completing with 404, the audit yields the record
with robots.txt Missing, ai_access Uncontrolled, sitemap.xml Missing,
ai.txt Missing, manifest Missing and schema count 0, its score is 0,
and exactly the structured-data and ai.txt recommendations fire, in
that order. -/
theorem empty_site_end_to_end :
    perform_audit envEmptySite = some (emptySiteRecord, [recSchema, recAiTxt], "report")
    ∧ calculate_score emptySiteRecord = 0 := ⟨rfl, rfl⟩

/-- Claim C5: when all four sitemap probes complete, the gate takes the
status of the first path in the fixed order that returned 200, tagging
the variant; in particular a 200 on the standard path wins over a 200
on the index path, and when none return 200 the status is Missing. -/
theorem sitemap_precedence (robots a : Option Response) (r1 r2 r3 r4 : Response) :
    (r1.status_code = 200 →
        lookupGate (check_security_gates robots (some r1) (some r2) (some r3) (some r4) a) "sitemap.xml"
          = "Found (Standard)")
    ∧ (r1.status_code ≠ 200 → r2.status_code = 200 →
        lookupGate (check_security_gates robots (some r1) (some r2) (some r3) (some r4) a) "sitemap.xml"
          = "Found (sitemaps.xml)")
    ∧ (r1.status_code ≠ 200 → r2.status_code ≠ 200 → r3.status_code = 200 →
        lookupGate (check_security_gates robots (some r1) (some r2) (some r3) (some r4) a) "sitemap.xml"
          = "Found (sitemap_index.xml)")
    ∧ (r1.status_code ≠ 200 → r2.status_code ≠ 200 → r3.status_code ≠ 200 → r4.status_code = 200 →
        lookupGate (check_security_gates robots (some r1) (some r2) (some r3) (some r4) a) "sitemap.xml"
          = "Found (wp-sitemap.xml)")
    ∧ (r1.status_code ≠ 200 → r2.status_code ≠ 200 → r3.status_code ≠ 200 → r4.status_code ≠ 200 →
        lookupGate (check_security_gates robots (some r1) (some r2) (some r3) (some r4) a) "sitemap.xml"
          = "Missing") := by
  rw [lookupGate_sitemap]
  refine ⟨?_, ?_, ?_, ?_, ?_⟩
  · intro h1; simp [sitemapGate, h1]
  · intro h1 h2; simp [sitemapGate, h1, h2]
  · intro h1 h2 h3; simp [sitemapGate, h1, h2, h3]
  · intro h1 h2 h3 h4; simp [sitemapGate, h1, h2, h3, h4]
  · intro h1 h2 h3 h4; simp [sitemapGate, h1, h2, h3, h4]

/-- Witness for claim C5: both the standard and the index path return
200 and the standard tag wins; all four returning 404 yields Missing. -/
theorem sitemap_precedence_witness :
    lookupGate (check_security_gates (some resp404) (some resp200) (some resp404)
        (some resp200) (some resp404) (some resp404)) "sitemap.xml" = "Found (Standard)"
    ∧ lookupGate (check_security_gates (some resp404) (some resp404) (some resp404)
        (some resp404) (some resp404) (some resp404)) "sitemap.xml" = "Missing" :=
  ⟨(sitemap_precedence (some resp404) (some resp404) resp200 resp404 resp200 resp404).1 rfl,
   (sitemap_precedence (some resp404) (some resp404) resp404 resp404 resp404 resp404).2.2.2.2
      (by decide) (by decide) (by decide) (by decide)⟩

/-- Claim C6: the identity resolution chain applies a fixed precedence
with the first match winning: ai plugin probe 200 first (whatever the
web manifest probe returned and whether the page links a manifest),
then web manifest probe 200, then an in-page manifest link, then
Missing; and the manifest field of every record perform_audit produces
is exactly this chain applied to the two probe statuses and the parsed
link. -/
theorem manifest_precedence (p w : Nat) (h : Bool) :
    (p = 200 → resolveManifest p w h = "Found (AI Plugin)")
    ∧ (p ≠ 200 → w = 200 → resolveManifest p w h = "Found (Web Manifest)")
    ∧ (p ≠ 200 → w ≠ 200 → h = true → resolveManifest p w h = "Found (Linked in HTML)")
    ∧ (p ≠ 200 → w ≠ 200 → h = false → resolveManifest p w h = "Missing")
    ∧ (∀ (env : AuditEnv) (out : AuditRecord × List String × String) (pl wm : Response),
        env.plugin = some pl → env.webManifest = some wm → perform_audit env = some out →
        out.1.manifest = resolveManifest pl.status_code wm.status_code env.page.manifestLink) := by
  refine ⟨?_, ?_, ?_, ?_, ?_⟩
  · intro h1; simp [resolveManifest, h1]
  · intro h1 h2; simp [resolveManifest, h1, h2]
  · intro h1 h2 h3; simp [resolveManifest, h1, h2, h3]
  · intro h1 h2 h3; simp [resolveManifest, h1, h2, h3]
  · intro env out pl wm hpl hwm hout
    cases hhp : env.homepage with
    | none => simp [perform_audit, hhp] at hout
    | some resp =>
      cases hmd : metaDescStep env.page.metaDesc with
      | none => simp [perform_audit, hhp, hmd] at hout
      | some md =>
        cases hss : schemaSampleStep env.page.schemas with
        | none => simp [perform_audit, hhp, hmd, hss] at hout
        | some ss =>
          cases hgt : env.genText with
          | none => simp [perform_audit, hhp, hmd, hss, hpl, hwm, hgt] at hout
          | some gt =>
            simp only [perform_audit, hhp, hmd, hss, hpl, hwm, hgt, Option.some.injEq] at hout
            subst hout
            rfl

/-- Witness for claim C6: both probes 200 with a page manifest link
still resolves as the ai plugin, and the empty-site run carries the
chain result in its record. -/
theorem manifest_precedence_witness :
    resolveManifest 200 200 true = "Found (AI Plugin)"
    ∧ resolveManifest 404 404 false = "Missing"
    ∧ emptySiteRecord.manifest = resolveManifest 404 404 false :=
  ⟨(manifest_precedence 200 200 true).1 rfl,
   (manifest_precedence 404 404 false).2.2.2.1 (by decide) (by decide) rfl,
   (manifest_precedence 404 404 false).2.2.2.2 envEmptySite
      (emptySiteRecord, [recSchema, recAiTxt], "report") resp404 resp404 rfl rfl rfl⟩

/-- Claim C7: for every record with the blocked ai access verdict, zero
schema count, missing ai.txt and a stack naming the Next.js label, the
recommendation list has exactly the four rule texts in the fixed rule
order. -/
theorem recommendations_order_stable (audit_data : AuditRecord)
    (hacc : lookupGate audit_data.gates "ai_access" = "BLOCKED (Critical Issue)")
    (hschema : audit_data.schema_count = 0)
    (haitxt : lookupGate audit_data.gates "ai.txt" = "Missing")
    (hstack : pyIn "Next.js (React)" audit_data.stack = true) :
    generate_recommendations audit_data = [recBlocked, recSchema, recAiTxt, recSSR] := by
  have hnext : pyIn "Next.js" audit_data.stack = true := strHas_mono (by decide) hstack
  have hb : pyIn "BLOCKED" "BLOCKED (Critical Issue)" = true := by decide
  have hm : pyIn "Missing" "Missing" = true := by decide
  unfold generate_recommendations
  rw [hacc, haitxt, hschema]
  simp [hb, hm, hnext]

/-- Witness for claim C7 at a concrete blocked Next.js record. -/
theorem recommendations_order_stable_witness :
    generate_recommendations blockedNextRecord = [recBlocked, recSchema, recAiTxt, recSSR] :=
  recommendations_order_stable blockedNextRecord rfl rfl rfl (by decide)

/-- Claim C8: the code does not tolerate a structured-data script
element with empty or missing text content.  On a homepage whose first
ld+json script has no text, the .string slice raises TypeError, the
outer handler reports Audit Failed, and no record is produced, contrary
to the never-fails requirement on the markup analysis. -/
theorem empty_schema_script_aborts_audit :
    envEmptySchemaScript.page.schemas = [none]
    ∧ envEmptySchemaScript.homepage.isSome = true
    ∧ perform_audit envEmptySchemaScript = none := ⟨rfl, rfl, rfl⟩

/-- Claim C9: the scorer is monotone per bucket: whenever each of the
five scored signals passing in one record passes in another, the score
does not decrease; flipping any single signal from failing to passing
while holding the rest fixed is an instance. -/
theorem score_monotone (a b : AuditRecord)
    (h1 : (lookupGate a.gates "robots.txt" == "Found") = true →
          (lookupGate b.gates "robots.txt" == "Found") = true)
    (h2 : pyIn "Allowed" (lookupGate a.gates "ai_access") = true →
          pyIn "Allowed" (lookupGate b.gates "ai_access") = true)
    (h3 : pyIn "Found" (lookupGate a.gates "sitemap.xml") = true →
          pyIn "Found" (lookupGate b.gates "sitemap.xml") = true)
    (h4 : a.schema_count > 0 → b.schema_count > 0)
    (h5 : (pyIn "Found" (lookupGate a.gates "ai.txt") || pyIn "Found" a.manifest) = true →
          (pyIn "Found" (lookupGate b.gates "ai.txt") || pyIn "Found" b.manifest) = true) :
    calculate_score a ≤ calculate_score b := by
  unfold calculate_score
  exact Nat.add_le_add
    (Nat.add_le_add
      (Nat.add_le_add
        (Nat.add_le_add (ite20_mono h1) (ite20_mono h2))
        (ite20_mono h3))
      (ite20_mono h4))
    (ite20_mono h5)

/-- Witness for claim C9: the all-failing record scores no more than a
record with the robots gate flipped to passing. -/
theorem score_monotone_witness :
    calculate_score emptySiteRecord ≤ calculate_score blockedNextRecord :=
  score_monotone emptySiteRecord blockedNextRecord (by decide) (by decide) (by decide)
    (by decide) (by decide)

/-- Claim C10: when no sitemap fetch raises, all four variant paths are
issued whatever the statuses; an exception on any of the four makes the
status Error checking even when an earlier variant already returned
200; and on every execution path the gates mapping carries exactly the
keys robots.txt, ai_access, sitemap.xml and ai.txt. -/
theorem sitemap_unconditional (robots a s1 s2 s3 s4 : Option Response) (r1 r2 r3 r4 : Response) :
    (sitemapIssued (some r1) (some r2) (some r3) (some r4)
      = ["/sitemap.xml", "/sitemaps.xml", "/sitemap_index.xml", "/wp-sitemap.xml"])
    ∧ ((s1 = none ∨ s2 = none ∨ s3 = none ∨ s4 = none) →
        lookupGate (check_security_gates robots s1 s2 s3 s4 a) "sitemap.xml" = "Error checking")
    ∧ ((check_security_gates robots s1 s2 s3 s4 a).map Prod.fst
      = ["robots.txt", "ai_access", "sitemap.xml", "ai.txt"]) := by
  refine ⟨rfl, ?_, ?_⟩
  · intro hnone
    rw [lookupGate_sitemap]
    cases s1 <;> cases s2 <;> cases s3 <;> cases s4 <;>
      first
        | rfl
        | (exfalso; rcases hnone with h | h | h | h <;> simp_all)
  · cases robots with
    | none => rfl
    | some r =>
      simp only [check_security_gates, robotsGates]
      split_ifs <;> rfl

/-- Witness for claim C10: a standard-path 200 followed by a raising
index probe still issues and degrades to Error checking, and the keys
are all present. -/
theorem sitemap_unconditional_witness :
    sitemapIssued (some resp200) (some resp404) (some resp200) (some resp404)
      = ["/sitemap.xml", "/sitemaps.xml", "/sitemap_index.xml", "/wp-sitemap.xml"]
    ∧ lookupGate (check_security_gates (some resp404) (some resp200) (some resp404) none
        (some resp404) (some resp404)) "sitemap.xml" = "Error checking"
    ∧ (check_security_gates (some resp404) (some resp200) (some resp404) none
        (some resp404) (some resp404)).map Prod.fst
      = ["robots.txt", "ai_access", "sitemap.xml", "ai.txt"] :=
  ⟨(sitemap_unconditional (some resp404) (some resp404) (some resp200) (some resp404) none
      (some resp404) resp200 resp404 resp200 resp404).1,
   (sitemap_unconditional (some resp404) (some resp404) (some resp200) (some resp404) none
      (some resp404) resp200 resp404 resp200 resp404).2.1 (Or.inr (Or.inr (Or.inl rfl))),
   (sitemap_unconditional (some resp404) (some resp404) (some resp200) (some resp404) none
      (some resp404) resp200 resp404 resp200 resp404).2.2⟩

/-- Claim C1, counterexample: a run in which the homepage fetch and the
narrative call succeed but the ai-plugin identity probe raises ends with
no record at all: the fetch failure escapes the Identity Resolver and
aborts the whole audit. -/
theorem identity_probe_failure_aborts_audit :
    envIdentityFailure.homepage.isSome = true
    ∧ envIdentityFailure.genText.isSome = true
    ∧ envIdentityFailure.plugin = none
    ∧ perform_audit envIdentityFailure = none := ⟨rfl, rfl, rfl, rfl⟩

/-- Claim C1, amended: network failures on the Gate Inspector fetches
(robots.txt, the four sitemap variants, ai.txt) are caught at the point
of the call and converted to status values inside the AuditRecord and
never abort the audit, but a network failure on either
identity-resolution probe aborts the whole audit with no record. -/
theorem fetch_error_isolation :
    (∀ env : AuditEnv, env.homepage.isSome = true →
        (metaDescStep env.page.metaDesc).isSome = true →
        (schemaSampleStep env.page.schemas).isSome = true →
        env.plugin.isSome = true → env.webManifest.isSome = true →
        env.genText.isSome = true →
        ∃ out : AuditRecord × List String × String,
          perform_audit env = some out
          ∧ out.1.gates = check_security_gates env.robots env.sitemap1 env.sitemap2
              env.sitemap3 env.sitemap4 env.aitxt)
    ∧ (∀ env : AuditEnv, env.plugin = none ∨ env.webManifest = none →
        perform_audit env = none) := by
  constructor
  · intro env h1 h2 h3 h4 h5 h6
    obtain ⟨resp, hresp⟩ := Option.isSome_iff_exists.mp h1
    obtain ⟨md, hmd⟩ := Option.isSome_iff_exists.mp h2
    obtain ⟨ss, hss⟩ := Option.isSome_iff_exists.mp h3
    obtain ⟨pl, hpl⟩ := Option.isSome_iff_exists.mp h4
    obtain ⟨wm, hwm⟩ := Option.isSome_iff_exists.mp h5
    obtain ⟨gt, hgt⟩ := Option.isSome_iff_exists.mp h6
    simp only [perform_audit, hresp, hmd, hss, hpl, hwm, hgt]
    exact ⟨_, rfl, rfl⟩
  · intro env h
    cases hhp : env.homepage with
    | none => simp [perform_audit, hhp]
    | some resp =>
      cases hmd : metaDescStep env.page.metaDesc with
      | none => simp [perform_audit, hhp, hmd]
      | some md =>
        cases hss : schemaSampleStep env.page.schemas with
        | none => simp [perform_audit, hhp, hmd, hss]
        | some ss =>
          rcases h with h | h
          · simp [perform_audit, hhp, hmd, hss, h]
          · cases hpl : env.plugin with
            | none => simp [perform_audit, hhp, hmd, hss, hpl]
            | some pl => simp [perform_audit, hhp, hmd, hss, hpl, h]

/-- Witness for the amended claim C1: a run where every Gate Inspector
fetch raises still produces a record, and a run where the web manifest
probe raises produces none. -/
theorem fetch_error_isolation_witness :
    (perform_audit envGatesDown).isSome = true
    ∧ perform_audit envManifestFailure = none := by
  obtain ⟨out, hout, -⟩ := fetch_error_isolation.1 envGatesDown rfl rfl rfl rfl rfl rfl
  exact ⟨by rw [hout]; rfl, fetch_error_isolation.2 envManifestFailure (Or.inr rfl)⟩
